import Mathlib

/-!
Verification of the traffic-signal phase controller of `IntersectionMDP`
(`src/entities/stoplight.py`, class `Stoplight`).

The controller owns a color for each of the two axes (north-south and
east-west), together with two counters `time_green` and `time_yellow`,
and exposes two mutating operations:

* `switch_yellow` (the spec's `request_transition()`), which turns the
  currently green axis yellow and resets `time_green`;
* `update_stoplight` (the spec's `tick()`), which advances the counters
  and performs the red/green swap once the yellow duration is reached.

Python integers never overflow, so the counters are embedded as `Nat`.
-/

/-- Modelled from the spec: the module `entities/colors.py` defining the
`TrafficLightColor` enumeration is not among the sources; the spec
describes the indication of an axis as an enumerated value
`Stop`/`Go`/`Caution` mapping to red/green/yellow, so the colors are
embedded as a three-valued enumeration with pairwise distinct values
(the Python enum members carry distinct `.value`s). -/
inductive TrafficLightColor where
  | RED
  | GREEN
  | YELLOW
deriving DecidableEq, Repr

/-- The state of `Stoplight`: one color per axis and the two counters
(`src/entities/stoplight.py`, attributes of `Stoplight`). -/
structure Stoplight where
  color_NS : TrafficLightColor
  color_EW : TrafficLightColor
  time_yellow : Nat
  time_green : Nat
deriving DecidableEq, Repr

/-- `Stoplight.YELLOW_DURATION = 90` (ticks). -/
def Stoplight.YELLOW_DURATION : Nat := 90

/-- `Stoplight.__init__`: the injected boolean `b` stands for the result of
`random.choice([True, False])`; north-south is green when `b` is true,
red otherwise, east-west gets the opposite color, both counters start
at 0. -/
def Stoplight.init (b : Bool) : Stoplight :=
  let ns := if b then TrafficLightColor.GREEN else TrafficLightColor.RED
  { color_NS := ns
    color_EW := if ns = TrafficLightColor.GREEN then TrafficLightColor.RED
                else TrafficLightColor.GREEN
    time_yellow := 0
    time_green := 0 }

/-- `Stoplight.get_ns_color`. -/
def Stoplight.get_ns_color (s : Stoplight) : TrafficLightColor := s.color_NS

/-- `Stoplight.get_ew_color`. -/
def Stoplight.get_ew_color (s : Stoplight) : TrafficLightColor := s.color_EW

/-- `Stoplight.switch_yellow`: switch the stoplight that is green to
yellow (the spec's `request_transition()`). -/
def Stoplight.switch_yellow (s : Stoplight) : Stoplight :=
  if s.color_NS = TrafficLightColor.GREEN then
    { s with color_NS := TrafficLightColor.YELLOW, time_green := 0 }
  else if s.color_EW = TrafficLightColor.GREEN then
    { s with color_EW := TrafficLightColor.YELLOW, time_green := 0 }
  else s

/-- `Stoplight.update_stoplight` (the spec's `tick()`): increment
`time_green` if some axis is green, increment `time_yellow` if some axis
is yellow, then, when `time_yellow` has reached `YELLOW_DURATION`, swap
the yellow axis to red and the other axis to green and reset
`time_yellow` to 0. -/
def Stoplight.update_stoplight (s : Stoplight) : Stoplight :=
  let tg := if s.color_NS = TrafficLightColor.GREEN ∨
               s.color_EW = TrafficLightColor.GREEN
            then s.time_green + 1 else s.time_green
  let ty := if s.color_NS = TrafficLightColor.YELLOW ∨
               s.color_EW = TrafficLightColor.YELLOW
            then s.time_yellow + 1 else s.time_yellow
  if Stoplight.YELLOW_DURATION ≤ ty then
    if s.color_NS = TrafficLightColor.YELLOW then
      { color_NS := TrafficLightColor.RED
        color_EW := TrafficLightColor.GREEN
        time_yellow := 0
        time_green := tg }
    else if s.color_EW = TrafficLightColor.YELLOW then
      { color_NS := TrafficLightColor.GREEN
        color_EW := TrafficLightColor.RED
        time_yellow := 0
        time_green := tg }
    else
      { s with time_yellow := 0, time_green := tg }
  else
    { s with time_yellow := ty, time_green := tg }

/-- States reachable from construction by any interleaving of
`switch_yellow` and `update_stoplight` calls. -/
inductive Stoplight.Reachable : Stoplight → Prop where
  | init (b : Bool) : Stoplight.Reachable (Stoplight.init b)
  | switch {s : Stoplight} : Stoplight.Reachable s →
      Stoplight.Reachable s.switch_yellow
  | update {s : Stoplight} : Stoplight.Reachable s →
      Stoplight.Reachable s.update_stoplight

/-- Some axis is currently yellow. -/
def Stoplight.someYellow (s : Stoplight) : Prop :=
  s.color_NS = TrafficLightColor.YELLOW ∨ s.color_EW = TrafficLightColor.YELLOW

/-- Mutual exclusion: exactly one axis is non-red. -/
def Stoplight.oneActive (s : Stoplight) : Prop :=
  (s.color_NS = TrafficLightColor.RED ∧ s.color_EW ≠ TrafficLightColor.RED) ∨
  (s.color_NS ≠ TrafficLightColor.RED ∧ s.color_EW = TrafficLightColor.RED)

/-- The inductive invariant of the controller: mutual exclusion, the
yellow counter is positive only while some axis is yellow, the yellow
counter stays strictly below the yellow duration, and the green counter
is zero while some axis is yellow. -/
def Stoplight.Inv (s : Stoplight) : Prop :=
  s.oneActive ∧
  (s.time_yellow ≠ 0 → s.someYellow) ∧
  s.time_yellow < Stoplight.YELLOW_DURATION ∧
  (s.someYellow → s.time_green = 0)

theorem Stoplight.inv_init (b : Bool) : (Stoplight.init b).Inv := by
  cases b <;> simp [Stoplight.init, Stoplight.Inv, Stoplight.oneActive,
    Stoplight.someYellow, Stoplight.YELLOW_DURATION]

theorem Stoplight.inv_switch {s : Stoplight} (h : s.Inv) :
    s.switch_yellow.Inv := by
  obtain ⟨cNS, cEW, ty, tg⟩ := s
  obtain ⟨h1, h2, h3, h4⟩ := h
  cases cNS <;> cases cEW <;>
    simp_all [Stoplight.switch_yellow, Stoplight.Inv, Stoplight.oneActive,
      Stoplight.someYellow]

theorem Stoplight.inv_update {s : Stoplight} (h : s.Inv) :
    s.update_stoplight.Inv := by
  obtain ⟨cNS, cEW, ty, tg⟩ := s
  obtain ⟨h1, h2, h3, h4⟩ := h
  cases cNS <;> cases cEW <;>
    simp_all [Stoplight.update_stoplight, Stoplight.Inv, Stoplight.oneActive,
      Stoplight.someYellow, Stoplight.YELLOW_DURATION] <;>
    split <;> simp_all <;> omega

theorem Stoplight.inv_of_reachable {s : Stoplight} (h : s.Reachable) :
    s.Inv := by
  induction h with
  | init b => exact Stoplight.inv_init b
  | switch _ ih => exact Stoplight.inv_switch ih
  | update _ ih => exact Stoplight.inv_update ih

/-- One tick on a yellow north-south axis below the swap threshold just
increments the yellow counter. -/
theorem Stoplight.update_yellowNS_step (j tg : Nat)
    (h : j + 1 < Stoplight.YELLOW_DURATION) :
    Stoplight.update_stoplight
        ⟨TrafficLightColor.YELLOW, TrafficLightColor.RED, j, tg⟩ =
      ⟨TrafficLightColor.YELLOW, TrafficLightColor.RED, j + 1, tg⟩ := by
  simp [Stoplight.update_stoplight]
  omega

/-- One tick on a yellow east-west axis below the swap threshold just
increments the yellow counter. -/
theorem Stoplight.update_yellowEW_step (j tg : Nat)
    (h : j + 1 < Stoplight.YELLOW_DURATION) :
    Stoplight.update_stoplight
        ⟨TrafficLightColor.RED, TrafficLightColor.YELLOW, j, tg⟩ =
      ⟨TrafficLightColor.RED, TrafficLightColor.YELLOW, j + 1, tg⟩ := by
  simp [Stoplight.update_stoplight]
  omega

/-- Iterating ticks over a yellow north-south axis, as long as the yellow
counter stays below the duration, keeps the colors and adds the number
of ticks to the counter. -/
theorem Stoplight.iterate_yellowNS (tg : Nat) :
    ∀ k j : Nat, j + k < Stoplight.YELLOW_DURATION →
    Stoplight.update_stoplight^[k]
        ⟨TrafficLightColor.YELLOW, TrafficLightColor.RED, j, tg⟩ =
      ⟨TrafficLightColor.YELLOW, TrafficLightColor.RED, j + k, tg⟩ := by
  intro k
  induction k with
  | zero => intro j _; rfl
  | succ k ih =>
      intro j h
      rw [Function.iterate_succ_apply,
        Stoplight.update_yellowNS_step j tg (by omega)]
      rw [ih (j + 1) (by omega)]
      congr 1
      omega

/-- Iterating ticks over a yellow east-west axis, as long as the yellow
counter stays below the duration, keeps the colors and adds the number
of ticks to the counter. -/
theorem Stoplight.iterate_yellowEW (tg : Nat) :
    ∀ k j : Nat, j + k < Stoplight.YELLOW_DURATION →
    Stoplight.update_stoplight^[k]
        ⟨TrafficLightColor.RED, TrafficLightColor.YELLOW, j, tg⟩ =
      ⟨TrafficLightColor.RED, TrafficLightColor.YELLOW, j + k, tg⟩ := by
  intro k
  induction k with
  | zero => intro j _; rfl
  | succ k ih =>
      intro j h
      rw [Function.iterate_succ_apply,
        Stoplight.update_yellowEW_step j tg (by omega)]
      rw [ih (j + 1) (by omega)]
      congr 1
      omega

/-- The tick that brings the yellow counter to the duration swaps a
yellow north-south axis to red, the east-west axis to green, and resets
the yellow counter. -/
theorem Stoplight.update_yellowNS_swap (tg : Nat) :
    Stoplight.update_stoplight
        ⟨TrafficLightColor.YELLOW, TrafficLightColor.RED,
          Stoplight.YELLOW_DURATION - 1, tg⟩ =
      ⟨TrafficLightColor.RED, TrafficLightColor.GREEN, 0, tg⟩ := by
  simp [Stoplight.update_stoplight, Stoplight.YELLOW_DURATION]

/-- The tick that brings the yellow counter to the duration swaps a
yellow east-west axis to red, the north-south axis to green, and resets
the yellow counter. -/
theorem Stoplight.update_yellowEW_swap (tg : Nat) :
    Stoplight.update_stoplight
        ⟨TrafficLightColor.RED, TrafficLightColor.YELLOW,
          Stoplight.YELLOW_DURATION - 1, tg⟩ =
      ⟨TrafficLightColor.GREEN, TrafficLightColor.RED, 0, tg⟩ := by
  simp [Stoplight.update_stoplight, Stoplight.YELLOW_DURATION]

/-- Reachability is preserved by iterating ticks. -/
theorem Stoplight.reachable_iterate {s : Stoplight} (h : s.Reachable) :
    ∀ n : Nat, Stoplight.Reachable (Stoplight.update_stoplight^[n] s) := by
  intro n
  induction n with
  | zero => exact h
  | succ n ih =>
      rw [Function.iterate_succ_apply']
      exact Stoplight.Reachable.update ih

/-- C1: in every state reachable from construction by any sequence of
`switch_yellow` and `update_stoplight` calls, exactly one of the two
axes has a color other than red — that axis is green or yellow — and the
other axis is red. -/
theorem claim_C1 (s : Stoplight) (h : s.Reachable) :
    ((s.color_NS = TrafficLightColor.GREEN ∨
        s.color_NS = TrafficLightColor.YELLOW) ∧
      s.color_EW = TrafficLightColor.RED) ∨
    (s.color_NS = TrafficLightColor.RED ∧
      (s.color_EW = TrafficLightColor.GREEN ∨
        s.color_EW = TrafficLightColor.YELLOW)) := by
  obtain ⟨h1, _, _, _⟩ := Stoplight.inv_of_reachable h
  obtain ⟨cNS, cEW, ty, tg⟩ := s
  simp only [Stoplight.oneActive] at h1
  cases cNS <;> cases cEW <;> simp_all

/-- Witness for C1 at the initial state with north-south green. -/
theorem claim_C1_witness :
    (((Stoplight.init true).color_NS = TrafficLightColor.GREEN ∨
        (Stoplight.init true).color_NS = TrafficLightColor.YELLOW) ∧
      (Stoplight.init true).color_EW = TrafficLightColor.RED) ∨
    ((Stoplight.init true).color_NS = TrafficLightColor.RED ∧
      ((Stoplight.init true).color_EW = TrafficLightColor.GREEN ∨
        (Stoplight.init true).color_EW = TrafficLightColor.YELLOW)) :=
  claim_C1 _ (Stoplight.Reachable.init true)

/-- C6: construction, for either outcome of the injected random boolean,
sets exactly one axis to green and the other to red — never yellow — and
sets both counters to 0. -/
theorem claim_C6 (b : Bool) :
    (((Stoplight.init b).color_NS = TrafficLightColor.GREEN ∧
        (Stoplight.init b).color_EW = TrafficLightColor.RED) ∨
      ((Stoplight.init b).color_NS = TrafficLightColor.RED ∧
        (Stoplight.init b).color_EW = TrafficLightColor.GREEN)) ∧
    (Stoplight.init b).color_NS ≠ TrafficLightColor.YELLOW ∧
    (Stoplight.init b).color_EW ≠ TrafficLightColor.YELLOW ∧
    (Stoplight.init b).time_green = 0 ∧
    (Stoplight.init b).time_yellow = 0 := by
  cases b <;> decide

/-- C4: if the north-south axis is green, `switch_yellow` turns it yellow
and zeroes `time_green`, leaving everything else unchanged; otherwise if
the east-west axis is green the same happens to it; and when neither
axis is green the call leaves the whole state unchanged. -/
theorem claim_C4 (s : Stoplight) :
    (s.color_NS = TrafficLightColor.GREEN →
      s.switch_yellow =
        { s with color_NS := TrafficLightColor.YELLOW, time_green := 0 }) ∧
    (s.color_NS ≠ TrafficLightColor.GREEN →
      s.color_EW = TrafficLightColor.GREEN →
      s.switch_yellow =
        { s with color_EW := TrafficLightColor.YELLOW, time_green := 0 }) ∧
    (s.color_NS ≠ TrafficLightColor.GREEN →
      s.color_EW ≠ TrafficLightColor.GREEN →
      s.switch_yellow = s) := by
  refine ⟨?_, ?_, ?_⟩ <;> intros <;> simp_all [Stoplight.switch_yellow]

/-- Witness for C4: the three branches of `switch_yellow` at concrete
states. -/
theorem claim_C4_witness :
    Stoplight.switch_yellow
        ⟨TrafficLightColor.GREEN, TrafficLightColor.RED, 0, 5⟩ =
      ⟨TrafficLightColor.YELLOW, TrafficLightColor.RED, 0, 0⟩ ∧
    Stoplight.switch_yellow
        ⟨TrafficLightColor.RED, TrafficLightColor.GREEN, 0, 5⟩ =
      ⟨TrafficLightColor.RED, TrafficLightColor.YELLOW, 0, 0⟩ ∧
    Stoplight.switch_yellow
        ⟨TrafficLightColor.RED, TrafficLightColor.YELLOW, 3, 0⟩ =
      ⟨TrafficLightColor.RED, TrafficLightColor.YELLOW, 3, 0⟩ :=
  ⟨(claim_C4 _).1 rfl,
   (claim_C4 _).2.1 (by decide) rfl,
   (claim_C4 _).2.2 (by decide) (by decide)⟩

/-- C5: on every reachable state, calling `switch_yellow` twice in
immediate succession yields exactly the same state as calling it once. -/
theorem claim_C5 (s : Stoplight) (h : s.Reachable) :
    s.switch_yellow.switch_yellow = s.switch_yellow := by
  obtain ⟨h1, _, _, _⟩ := Stoplight.inv_of_reachable h
  obtain ⟨cNS, cEW, ty, tg⟩ := s
  simp only [Stoplight.oneActive] at h1
  cases cNS <;> cases cEW <;> simp_all [Stoplight.switch_yellow]

/-- Witness for C5 at the initial state with north-south green. -/
theorem claim_C5_witness :
    (Stoplight.init true).switch_yellow.switch_yellow =
      (Stoplight.init true).switch_yellow :=
  claim_C5 _ (Stoplight.Reachable.init true)

/-- C7: in every reachable state, `time_yellow` is non-zero only if some
axis is currently yellow. -/
theorem claim_C7 (s : Stoplight) (h : s.Reachable)
    (hy : s.time_yellow ≠ 0) :
    s.color_NS = TrafficLightColor.YELLOW ∨
    s.color_EW = TrafficLightColor.YELLOW := by
  obtain ⟨_, h2, _, _⟩ := Stoplight.inv_of_reachable h
  exact h2 hy

/-- Witness for C7: after a request and one tick, `time_yellow = 1` and
indeed some axis is yellow. -/
theorem claim_C7_witness :
    (Stoplight.init true).switch_yellow.update_stoplight.color_NS =
      TrafficLightColor.YELLOW ∨
    (Stoplight.init true).switch_yellow.update_stoplight.color_EW =
      TrafficLightColor.YELLOW :=
  claim_C7 _
    (Stoplight.Reachable.update
      (Stoplight.Reachable.switch (Stoplight.Reachable.init true)))
    (by decide)

/-- C8: calling `switch_yellow` while north-south is red and east-west is
green turns east-west yellow and zeroes `time_green`, leaving north-south
red — the active axis transitions, not the inactive one. -/
theorem claim_C8 (ty tg : Nat) :
    Stoplight.switch_yellow
        ⟨TrafficLightColor.RED, TrafficLightColor.GREEN, ty, tg⟩ =
      ⟨TrafficLightColor.RED, TrafficLightColor.YELLOW, ty, 0⟩ := by
  simp [Stoplight.switch_yellow]

/-- C10: in every reachable state, whenever some axis is yellow,
`time_green` equals 0. -/
theorem claim_C10 (s : Stoplight) (h : s.Reachable)
    (hy : s.color_NS = TrafficLightColor.YELLOW ∨
          s.color_EW = TrafficLightColor.YELLOW) :
    s.time_green = 0 := by
  obtain ⟨_, _, _, h4⟩ := Stoplight.inv_of_reachable h
  exact h4 hy

/-- Witness for C10 right after a request from the initial state. -/
theorem claim_C10_witness :
    (Stoplight.init true).switch_yellow.time_green = 0 :=
  claim_C10 _
    (Stoplight.Reachable.switch (Stoplight.Reachable.init true))
    (Or.inl rfl)

/-- C3: from a state where north-south is yellow with `time_yellow = 0`
and east-west is red (any green counter), 89 ticks leave north-south
yellow with `time_yellow = 89`, and the 90th tick makes north-south red,
east-west green, and `time_yellow = 0`. -/
theorem claim_C3 (tg : Nat) :
    (Stoplight.update_stoplight^[89]
        ⟨TrafficLightColor.YELLOW, TrafficLightColor.RED, 0, tg⟩).color_NS =
      TrafficLightColor.YELLOW ∧
    (Stoplight.update_stoplight^[89]
        ⟨TrafficLightColor.YELLOW, TrafficLightColor.RED, 0, tg⟩).time_yellow =
      89 ∧
    Stoplight.update_stoplight^[90]
        ⟨TrafficLightColor.YELLOW, TrafficLightColor.RED, 0, tg⟩ =
      ⟨TrafficLightColor.RED, TrafficLightColor.GREEN, 0, tg⟩ := by
  have h89 := Stoplight.iterate_yellowNS tg 89 0 (by decide)
  refine ⟨by rw [h89], by rw [h89], ?_⟩
  show Stoplight.update_stoplight^[89 + 1]
      ⟨TrafficLightColor.YELLOW, TrafficLightColor.RED, 0, tg⟩ = _
  rw [Function.iterate_succ_apply', h89]
  exact Stoplight.update_yellowNS_swap tg

/-- C9: in every reachable state, `time_yellow` never exceeds
`YELLOW_DURATION`; moreover, from a reachable state in which the next
tick brings the counter to `YELLOW_DURATION`, that same tick performs
the swap and resets `time_yellow` to 0. -/
theorem claim_C9 (s : Stoplight) (h : s.Reachable) :
    s.time_yellow ≤ Stoplight.YELLOW_DURATION ∧
    (s.time_yellow + 1 = Stoplight.YELLOW_DURATION →
      ((s.color_NS = TrafficLightColor.YELLOW →
          s.update_stoplight.color_NS = TrafficLightColor.RED ∧
          s.update_stoplight.color_EW = TrafficLightColor.GREEN ∧
          s.update_stoplight.time_yellow = 0) ∧
       (s.color_EW = TrafficLightColor.YELLOW →
          s.update_stoplight.color_NS = TrafficLightColor.GREEN ∧
          s.update_stoplight.color_EW = TrafficLightColor.RED ∧
          s.update_stoplight.time_yellow = 0))) := by
  obtain ⟨h1, _, h3, _⟩ := Stoplight.inv_of_reachable h
  obtain ⟨cNS, cEW, ty, tg⟩ := s
  simp only [Stoplight.oneActive] at h1
  refine ⟨by omega, fun hty => ⟨fun hNS => ?_, fun hEW => ?_⟩⟩
  · subst hNS
    simp_all [Stoplight.update_stoplight]
  · subst hEW
    cases cNS <;> simp_all [Stoplight.update_stoplight]

/-- Witness for C9: the state reached after a request and 89 ticks has a
yellow counter of 89, and the 90th tick swaps and resets it. -/
theorem claim_C9_witness :
    (Stoplight.update_stoplight
        ⟨TrafficLightColor.YELLOW, TrafficLightColor.RED, 89, 0⟩).color_NS =
      TrafficLightColor.RED ∧
    (Stoplight.update_stoplight
        ⟨TrafficLightColor.YELLOW, TrafficLightColor.RED, 89, 0⟩).color_EW =
      TrafficLightColor.GREEN ∧
    (Stoplight.update_stoplight
        ⟨TrafficLightColor.YELLOW, TrafficLightColor.RED, 89, 0⟩).time_yellow =
      0 := by
  have hr : Stoplight.Reachable
      (Stoplight.update_stoplight^[89] (Stoplight.init true).switch_yellow) :=
    Stoplight.reachable_iterate
      (Stoplight.Reachable.switch (Stoplight.Reachable.init true)) 89
  have he : Stoplight.update_stoplight^[89]
      (Stoplight.init true).switch_yellow =
      ⟨TrafficLightColor.YELLOW, TrafficLightColor.RED, 89, 0⟩ :=
    Stoplight.iterate_yellowNS 0 89 0 (by decide)
  rw [he] at hr
  exact ((claim_C9 _ hr).2 (by decide)).1 (by decide)

/-- C2 as stated is false on the code: from the reachable state just
after a request (north-south yellow, counter 0), after exactly
`YELLOW_DURATION = 90` ticks the north-south axis is already red, not
still yellow — the swap happens on the 90th tick, not on the 91st. -/
theorem claim_C2_counterexample :
    (Stoplight.update_stoplight^[90]
        (Stoplight.init true).switch_yellow).color_NS =
      TrafficLightColor.RED ∧
    TrafficLightColor.RED ≠ TrafficLightColor.YELLOW := by
  constructor
  · have h89 := Stoplight.iterate_yellowNS 0 89 0 (by decide)
    have hsw : (Stoplight.init true).switch_yellow =
        ⟨TrafficLightColor.YELLOW, TrafficLightColor.RED, 0, 0⟩ := rfl
    rw [hsw]
    show (Stoplight.update_stoplight^[89 + 1]
        ⟨TrafficLightColor.YELLOW, TrafficLightColor.RED, 0, 0⟩).color_NS = _
    rw [Function.iterate_succ_apply', h89]
    exact congrArg Stoplight.color_NS (Stoplight.update_yellowNS_swap 0)
  · decide

/-- C2 amended: from any reachable state with a green axis, after a
`switch_yellow` call that turns it yellow, that axis remains yellow with
`time_yellow = k` after each number `k < YELLOW_DURATION` of ticks
(so for exactly `YELLOW_DURATION - 1` subsequent ticks it is still
yellow afterwards), and the `YELLOW_DURATION`-th tick performs the swap:
the axis becomes red, the paired axis green, and the counter resets. -/
theorem claim_C2_amended (s : Stoplight) (h : s.Reachable) :
    (s.color_NS = TrafficLightColor.GREEN →
      (∀ k, k < Stoplight.YELLOW_DURATION →
        (Stoplight.update_stoplight^[k] s.switch_yellow).color_NS =
          TrafficLightColor.YELLOW ∧
        (Stoplight.update_stoplight^[k] s.switch_yellow).time_yellow = k) ∧
      Stoplight.update_stoplight^[Stoplight.YELLOW_DURATION] s.switch_yellow =
        ⟨TrafficLightColor.RED, TrafficLightColor.GREEN, 0, 0⟩) ∧
    (s.color_EW = TrafficLightColor.GREEN →
      (∀ k, k < Stoplight.YELLOW_DURATION →
        (Stoplight.update_stoplight^[k] s.switch_yellow).color_EW =
          TrafficLightColor.YELLOW ∧
        (Stoplight.update_stoplight^[k] s.switch_yellow).time_yellow = k) ∧
      Stoplight.update_stoplight^[Stoplight.YELLOW_DURATION] s.switch_yellow =
        ⟨TrafficLightColor.GREEN, TrafficLightColor.RED, 0, 0⟩) := by
  obtain ⟨h1, h2, h3, h4⟩ := Stoplight.inv_of_reachable h
  obtain ⟨cNS, cEW, ty, tg⟩ := s
  simp only [Stoplight.oneActive] at h1
  simp only [Stoplight.someYellow] at h2
  constructor
  · intro hNS
    subst hNS
    have hEW : cEW = TrafficLightColor.RED := by
      rcases h1 with ⟨ha, _⟩ | ⟨_, hb⟩
      · exact absurd ha (by decide)
      · exact hb
    subst hEW
    have hty : ty = 0 := by
      by_contra hne
      exact absurd (h2 hne) (by decide)
    subst hty
    have hsw : Stoplight.switch_yellow
        ⟨TrafficLightColor.GREEN, TrafficLightColor.RED, 0, tg⟩ =
        ⟨TrafficLightColor.YELLOW, TrafficLightColor.RED, 0, 0⟩ := rfl
    rw [hsw]
    constructor
    · intro k hk
      rw [Stoplight.iterate_yellowNS 0 k 0 (by omega)]
      exact ⟨rfl, by simp⟩
    · show Stoplight.update_stoplight^[89 + 1]
          ⟨TrafficLightColor.YELLOW, TrafficLightColor.RED, 0, 0⟩ = _
      rw [Function.iterate_succ_apply',
        Stoplight.iterate_yellowNS 0 89 0 (by decide)]
      exact Stoplight.update_yellowNS_swap 0
  · intro hEW
    subst hEW
    have hNS : cNS = TrafficLightColor.RED := by
      rcases h1 with ⟨ha, _⟩ | ⟨_, hb⟩
      · exact ha
      · exact absurd hb (by decide)
    subst hNS
    have hty : ty = 0 := by
      by_contra hne
      exact absurd (h2 hne) (by decide)
    subst hty
    have hsw : Stoplight.switch_yellow
        ⟨TrafficLightColor.RED, TrafficLightColor.GREEN, 0, tg⟩ =
        ⟨TrafficLightColor.RED, TrafficLightColor.YELLOW, 0, 0⟩ := rfl
    rw [hsw]
    constructor
    · intro k hk
      rw [Stoplight.iterate_yellowEW 0 k 0 (by omega)]
      exact ⟨rfl, by simp⟩
    · show Stoplight.update_stoplight^[89 + 1]
          ⟨TrafficLightColor.RED, TrafficLightColor.YELLOW, 0, 0⟩ = _
      rw [Function.iterate_succ_apply',
        Stoplight.iterate_yellowEW 0 89 0 (by decide)]
      exact Stoplight.update_yellowEW_swap 0

/-- Witness for the amended C2 at the initial state with north-south
green. -/
theorem claim_C2_amended_witness :
    Stoplight.update_stoplight^[Stoplight.YELLOW_DURATION]
        (Stoplight.init true).switch_yellow =
      ⟨TrafficLightColor.RED, TrafficLightColor.GREEN, 0, 0⟩ :=
  ((claim_C2_amended _ (Stoplight.Reachable.init true)).1 rfl).2
